import Mathlib

/-!
Verification of the SSD1309 OLED driver (`src/Drivers/OLED/ssd1309.h`).

The repository ships the driver's interface header only: constants
(`SSD1309_WIDTH`, `SSD1309_HEIGHT`, `SSD1309_FB_SIZE`), the context
structure `ssd1309_t`, and the declarations plus documented contracts of
`ssd1309_init`, `ssd1309_reset`, `ssd1309_write_cmd`, `ssd1309_write_data`
and `ssd1309_update`.  The function bodies are not part of the sources, so
each body below is modelled from the specification (its doc comment says
so) while the constants, signatures and documented contracts are taken
from the header.

The embedding is a trace semantics: a `World` carries the device context,
a list of injected bus outcomes (the transport collaborator), and the
trace of control-line, bus-write and delay events the driver has emitted.
-/

namespace SSD1309

/-- Display width in pixels, from `SSD1309_WIDTH` in `ssd1309.h`. -/
def SSD1309_WIDTH : Nat := 128

/-- Display height in pixels, from `SSD1309_HEIGHT` in `ssd1309.h`. -/
def SSD1309_HEIGHT : Nat := 64

/-- Framebuffer size in bytes, from `SSD1309_FB_SIZE` in `ssd1309.h`:
`SSD1309_WIDTH * SSD1309_HEIGHT / 8`. -/
def SSD1309_FB_SIZE : Nat := SSD1309_WIDTH * SSD1309_HEIGHT / 8

/-- HAL status codes, from STM32 HAL's `HAL_StatusTypeDef`. -/
inductive HAL_StatusTypeDef
  | HAL_OK
  | HAL_ERROR
  | HAL_BUSY
  | HAL_TIMEOUT
deriving DecidableEq, Repr

/-- The three discrete control lines of the display (spec §6): chip
select (CS), data/command select (DC, the mode line), and reset (RST). -/
inductive CtrlLine
  | select
  | mode
  | reset
deriving DecidableEq, Repr

/-- Logic level of a control line. -/
inductive Level
  | low
  | high
deriving DecidableEq, Repr

/-- Observable events of the driver: control-line writes, bus writes
(byte payloads), and blocking delays in milliseconds. -/
inductive BusEvent
  | setLine (l : CtrlLine) (lv : Level)
  | write (bytes : List Nat)
  | delay (ms : Nat)
deriving DecidableEq, Repr

/-- Modelled from the spec: initialization state machine of the Display
Session (spec §4.3), `Uninitialized → Resetting → Configuring → Ready`
with terminal failure state `Faulted`.  Missing from `src/` because the
implementation file is not shipped; the header only documents the
behavior. -/
inductive SessionState
  | Uninitialized
  | Resetting
  | Configuring
  | Ready
  | Faulted
deriving DecidableEq, Repr

/-- Driver context, from `ssd1309_t` in `ssd1309.h`: the framebuffer
(1024 bytes, page-addressed) plus — modelled from the spec §3 — the
session's initialization-state flag.  The HAL handles and GPIO pin
numbers of the C struct are abstracted into the trace semantics. -/
structure ssd1309_t where
  framebuffer : List Nat
  state : SessionState
deriving DecidableEq, Repr

/-- The world a driver call runs in: the device context, the outcomes
the bus transport will return for successive writes (an empty or
exhausted list means every further write succeeds with `HAL_OK`), and
the event trace emitted so far. -/
structure World where
  dev : ssd1309_t
  bus : List HAL_StatusTypeDef
  trace : List BusEvent
deriving DecidableEq, Repr

/-- Append one event to the world's trace. -/
def emit (w : World) (e : BusEvent) : World :=
  { w with trace := w.trace ++ [e] }

/-- Replace the session state. -/
def setState (w : World) (s : SessionState) : World :=
  { w with dev := { w.dev with state := s } }

/-- One blocking bus write (spec §6 Bus Transport collaborator): emits
the write event and consumes the next injected outcome, `HAL_OK` when
none is injected. -/
def busWrite (w : World) (bytes : List Nat) : HAL_StatusTypeDef × World :=
  (w.bus.headD .HAL_OK,
   { w with bus := w.bus.tail, trace := w.trace ++ [.write bytes] })

/-- Modelled from the spec: body of `ssd1309_write_cmd` (declared at
`ssd1309.h:123`; the `.c` file is not in `src/`).  Per the header doc
"DC line is driven LOW during command transmission" and spec §4.4 the
transaction is `assert-select → set-mode → transmit → deassert-select`,
with the deassert running regardless of the write's outcome. -/
def ssd1309_write_cmd (w : World) (cmd : Nat) : HAL_StatusTypeDef × World :=
  let w1 := emit w (.setLine .select .low)
  let w2 := emit w1 (.setLine .mode .low)
  let r := busWrite w2 [cmd]
  let w4 := emit r.2 (.setLine .select .high)
  (r.1, w4)

/-- Modelled from the spec: body of `ssd1309_write_data` (declared at
`ssd1309.h:135`).  Per the header doc "DC line is driven HIGH during
data transmission", same select bracketing as a command transaction. -/
def ssd1309_write_data (w : World) (data : List Nat) :
    HAL_StatusTypeDef × World :=
  let w1 := emit w (.setLine .select .low)
  let w2 := emit w1 (.setLine .mode .high)
  let r := busWrite w2 data
  let w4 := emit r.2 (.setLine .select .high)
  (r.1, w4)

/-- Modelled from the spec: reset-line hold time before the pulse
(spec §4.3; the exact datasheet duration is left open by the spec, the
constant stands for the mandated minimum). -/
def SSD1309_RESET_HOLD_MS : Nat := 1

/-- Modelled from the spec: minimum reset pulse width (spec §4.3). -/
def SSD1309_RESET_PULSE_MS : Nat := 10

/-- Modelled from the spec: minimum post-reset settle time before any
command byte is sent (spec §4.3). -/
def SSD1309_RESET_SETTLE_MS : Nat := 100

/-- The control-line/delay events of the hardware reset sequence
(spec §4.3): deassert reset, hold, assert reset for the minimum pulse
width, release, wait the post-reset settle time. -/
def resetTrace : List BusEvent :=
  [.setLine .reset .high, .delay SSD1309_RESET_HOLD_MS,
   .setLine .reset .low, .delay SSD1309_RESET_PULSE_MS,
   .setLine .reset .high, .delay SSD1309_RESET_SETTLE_MS]

/-- Modelled from the spec: body of `ssd1309_reset` (declared `void` at
`ssd1309.h:112`; the `.c` file is not in `src/`).  Toggles RST per the
controller's timing requirements and re-enters `Resetting` (spec §6);
it performs no bus write and returns no status. -/
def ssd1309_reset (w : World) : World :=
  let w0 := setState w .Resetting
  { w0 with trace := w0.trace ++ resetTrace }

/-- Modelled from the spec: the documented fixed power-up command
sequence of spec §4.3 (set addressing mode, multiplex ratio, contrast,
segment/COM remap, display-on), each byte sent as its own command
transaction.  The exact bytes are the controller's documented encodings
(Command Codec, spec §4.2). -/
def initCommands : List Nat :=
  [0x20, 0x00,
   0xA8, 0x3F,
   0x81, 0x7F,
   0xA1, 0xC8,
   0xAF]

/-- Send a list of command bytes as successive command transactions,
aborting on the first failure without any internal retry (spec §7). -/
def writeCmds : List Nat → World → HAL_StatusTypeDef × World
  | [], w => (.HAL_OK, w)
  | c :: cs, w =>
    let r := ssd1309_write_cmd w c
    if r.1 = .HAL_OK then writeCmds cs r.2 else r

/-- Modelled from the spec: body of `ssd1309_init` (declared at
`ssd1309.h:103`).  Runs the reset timing sequence, then the documented
power-up command sequence; ends `Ready` on success, `Faulted` on any
bus-write failure (spec §4.3).  Re-attempting from `Faulted` is a fresh
run: the incoming state is not consulted. -/
def ssd1309_init (w : World) : HAL_StatusTypeDef × World :=
  let w1 := ssd1309_reset w
  let w2 := setState w1 .Configuring
  let r := writeCmds initCommands w2
  if r.1 = .HAL_OK then (.HAL_OK, setState r.2 .Ready)
  else (r.1, setState r.2 .Faulted)

/-- Modelled from the spec: set-addressing-window command bytes
establishing the full-screen write region (spec §4.5): set column
address 0..127, set page address 0..7. -/
def windowCommands : List Nat :=
  [0x21, 0x00, 0x7F, 0x22, 0x00, 0x07]

/-- Modelled from the spec: body of `ssd1309_update` (declared at
`ssd1309.h:146`).  Requires `Ready` (else fails with no side effect,
spec §7 `NotInitialized`); issues the addressing-window commands, then
the whole framebuffer as one data transaction; any bus failure drives
the session to `Faulted` (spec §4.5). -/
def ssd1309_update (w : World) : HAL_StatusTypeDef × World :=
  if w.dev.state = .Ready then
    let r := writeCmds windowCommands w
    if r.1 = .HAL_OK then
      let r2 := ssd1309_write_data r.2 w.dev.framebuffer
      if r2.1 = .HAL_OK then r2 else (r2.1, setState r2.2 .Faulted)
    else (r.1, setState r.2 .Faulted)
  else (.HAL_ERROR, w)

/-- Framebuffer error condition of spec §7 for pixel operations. -/
inductive FbError
  | OutOfBounds
deriving DecidableEq, Repr

/-- Set or clear one bit of a byte: `b ||| (1 <<< k)` to set,
`b &&& (0xFF ^^^ (1 <<< k))` to clear. -/
def setBitByte (b : Nat) (k : Nat) : Bool → Nat
  | true => b ||| (1 <<< k)
  | false => b &&& (0xFF ^^^ (1 <<< k))

/-- Modelled from the spec: `set_pixel` (spec §4.1; not declared in the
shipped header).  Bounds-checks `x ∈ [0,WIDTH)`, `y ∈ [0,HEIGHT)` —
failing with `OutOfBounds`, no wrapping or clamping — then sets or
clears the single bit at byte index `(y/8)*WIDTH + x`, bit `y mod 8`. -/
def set_pixel (fb : List Nat) (x y : Int) (lit : Bool) :
    Except FbError (List Nat) :=
  if 0 ≤ x ∧ x < 128 ∧ 0 ≤ y ∧ y < 64 then
    let idx := (y.toNat / 8) * SSD1309_WIDTH + x.toNat
    .ok (fb.set idx (setBitByte (fb.getD idx 0) (y.toNat % 8) lit))
  else .error .OutOfBounds

/-- Modelled from the spec: read back the pixel bit at `(x, y)` from the
page-addressed framebuffer layout (spec §4.1, §8). -/
def get_pixel (fb : List Nat) (x y : Int) : Except FbError Bool :=
  if 0 ≤ x ∧ x < 128 ∧ 0 ≤ y ∧ y < 64 then
    .ok (Nat.testBit (fb.getD ((y.toNat / 8) * SSD1309_WIDTH + x.toNat) 0)
          (y.toNat % 8))
  else .error .OutOfBounds

/-- Modelled from the spec: `clear` (spec §4.1) — fill the framebuffer
with 0; no failure mode. -/
def fb_clear (_fb : List Nat) : List Nat :=
  List.replicate SSD1309_FB_SIZE 0

/-- Session-level `set_pixel`: on error the world, its framebuffer
included, is untouched (spec §7: caller error, not corruption). -/
def set_pixel_dev (w : World) (x y : Int) (lit : Bool) :
    Except FbError Unit × World :=
  match set_pixel w.dev.framebuffer x y lit with
  | .ok fb => (.ok (), { w with dev := { w.dev with framebuffer := fb } })
  | .error e => (.error e, w)

/-- Session-level `clear`: replaces the framebuffer, emits nothing. -/
def clear_dev (w : World) : World :=
  { w with dev := { w.dev with framebuffer := fb_clear w.dev.framebuffer } }

/-- Trace of one full command transaction for byte `c` (spec §4.4). -/
def cmdTxTrace (c : Nat) : List BusEvent :=
  [.setLine .select .low, .setLine .mode .low,
   .write [c], .setLine .select .high]

/-- Trace of one full data transaction for payload `d` (spec §4.4). -/
def dataTxTrace (d : List Nat) : List BusEvent :=
  [.setLine .select .low, .setLine .mode .high,
   .write d, .setLine .select .high]

/-- Number of bus-write transactions recorded in a trace. -/
def countWrites : List BusEvent → Nat
  | [] => 0
  | .write _ :: rest => countWrites rest + 1
  | _ :: rest => countWrites rest

/-- Concatenated payload of the bus writes performed while the mode
(DC) line last stood at `high` — the data bytes of a trace.  The first
argument is the mode level at the start of the trace. -/
def dataBytes : Level → List BusEvent → List Nat
  | _, [] => []
  | _, .setLine .mode lv :: rest => dataBytes lv rest
  | m, .write bs :: rest =>
    (if m = .high then bs else []) ++ dataBytes m rest
  | m, .setLine .select _ :: rest => dataBytes m rest
  | m, .setLine .reset _ :: rest => dataBytes m rest
  | m, .delay _ :: rest => dataBytes m rest

/-- A fresh session world: zeroed framebuffer, `Uninitialized`, clean
transport, empty trace. -/
def initialWorld : World :=
  { dev := { framebuffer := List.replicate SSD1309_FB_SIZE 0,
             state := .Uninitialized },
    bus := [], trace := [] }

/-- A session world with an empty framebuffer, used to exercise the
bus-facing operations (which never read the buffer's contents). -/
def wEmpty : World :=
  { dev := { framebuffer := [], state := .Uninitialized },
    bus := [], trace := [] }

/-- A `Ready` session world with a 1024-byte framebuffer. -/
def wReady : World :=
  { dev := { framebuffer := List.replicate SSD1309_FB_SIZE 7,
             state := .Ready },
    bus := [], trace := [] }

/-- A fresh world whose transport fails the first bus write. -/
def wFail : World :=
  { dev := { framebuffer := [], state := .Uninitialized },
    bus := [.HAL_ERROR], trace := [] }

theorem write_cmd_trace (w : World) (c : Nat) :
    (ssd1309_write_cmd w c).2.trace = w.trace ++ cmdTxTrace c := by
  simp [ssd1309_write_cmd, emit, busWrite, cmdTxTrace]

theorem write_cmd_status (w : World) (c : Nat) :
    (ssd1309_write_cmd w c).1 = w.bus.headD .HAL_OK := rfl

theorem write_cmd_bus (w : World) (c : Nat) :
    (ssd1309_write_cmd w c).2.bus = w.bus.tail := rfl

theorem write_cmd_dev (w : World) (c : Nat) :
    (ssd1309_write_cmd w c).2.dev = w.dev := rfl

theorem write_data_trace (w : World) (d : List Nat) :
    (ssd1309_write_data w d).2.trace = w.trace ++ dataTxTrace d := by
  simp [ssd1309_write_data, emit, busWrite, dataTxTrace]

theorem write_data_dev (w : World) (d : List Nat) :
    (ssd1309_write_data w d).2.dev = w.dev := rfl

theorem countWrites_append (a b : List BusEvent) :
    countWrites (a ++ b) = countWrites a + countWrites b := by
  induction a with
  | nil => simp [countWrites]
  | cons e rest ih =>
    cases e with
    | setLine l lv => simp [countWrites, ih]
    | write bs => simp [countWrites, ih]; omega
    | delay ms => simp [countWrites, ih]

theorem writeCmds_dev (cs : List Nat) (w : World) :
    (writeCmds cs w).2.dev = w.dev := by
  induction cs generalizing w with
  | nil => rfl
  | cons c cs ih =>
    simp only [writeCmds]
    split
    · rw [ih, write_cmd_dev]
    · rw [write_cmd_dev]

theorem writeCmds_ok_trace (cs : List Nat) (w : World)
    (h : (writeCmds cs w).1 = .HAL_OK) :
    (writeCmds cs w).2.trace = w.trace ++ (cs.map cmdTxTrace).flatten := by
  induction cs generalizing w with
  | nil => simp [writeCmds]
  | cons c cs ih =>
    simp only [writeCmds] at h ⊢
    split at h
    · rw [if_pos (by assumption), ih _ h, write_cmd_trace]
      simp [List.append_assoc]
    · rw [if_neg (by assumption)]
      exact absurd h (by assumption)

theorem writeCmds_status_from_bus (cs : List Nat) (w : World) :
    (writeCmds cs w).1 = .HAL_OK ∨ (writeCmds cs w).1 ∈ w.bus := by
  induction cs generalizing w with
  | nil => exact Or.inl rfl
  | cons c cs ih =>
    simp only [writeCmds]
    split
    · rcases ih (ssd1309_write_cmd w c).2 with h | h
      · exact Or.inl h
      · exact Or.inr (List.tail_subset w.bus (write_cmd_bus w c ▸ h))
    · rename_i hne
      cases hb : w.bus with
      | nil =>
        exact absurd (by rw [write_cmd_status, hb]; rfl) hne
      | cons b bs =>
        refine Or.inr ?_
        rw [write_cmd_status, hb]
        exact List.mem_cons_self b bs


theorem testBit_255 (k : Nat) (hk : k < 8) : Nat.testBit 255 k = true := by
  interval_cases k <;> decide

theorem testBit_setBitByte_self (b k : Nat) (lit : Bool) (hk : k < 8) :
    Nat.testBit (setBitByte b k lit) k = lit := by
  cases lit with
  | true =>
    simp [setBitByte, Nat.testBit_lor, Nat.one_shiftLeft,
          Nat.testBit_two_pow_self]
  | false =>
    simp [setBitByte, Nat.testBit_land, Nat.testBit_xor, Nat.one_shiftLeft,
          Nat.testBit_two_pow_self, testBit_255 k hk]

theorem testBit_setBitByte_other (b k j : Nat) (lit : Bool)
    (hj : j < 8) (hne : j ≠ k) :
    Nat.testBit (setBitByte b k lit) j = Nat.testBit b j := by
  cases lit with
  | true =>
    simp [setBitByte, Nat.testBit_lor, Nat.one_shiftLeft,
          Nat.testBit_two_pow_of_ne (Ne.symm hne)]
  | false =>
    simp [setBitByte, Nat.testBit_land, Nat.testBit_xor, Nat.one_shiftLeft,
          Nat.testBit_two_pow_of_ne (Ne.symm hne), testBit_255 j hj]

theorem setBitByte_idem (b k : Nat) (lit : Bool) :
    setBitByte (setBitByte b k lit) k lit = setBitByte b k lit := by
  cases lit with
  | true =>
    apply Nat.eq_of_testBit_eq
    intro i
    simp only [setBitByte, Nat.testBit_lor]
    cases Nat.testBit b i <;> cases Nat.testBit (1 <<< k) i <;> rfl
  | false =>
    apply Nat.eq_of_testBit_eq
    intro i
    simp only [setBitByte, Nat.testBit_land]
    cases Nat.testBit b i <;> cases Nat.testBit (0xFF ^^^ 1 <<< k) i <;> rfl

/-- Claim C1: every bus transaction of `ssd1309_write_cmd` holds the
mode (DC) line LOW and every transaction of `ssd1309_write_data` holds
it HIGH for the whole transaction; each transaction is bracketed by
select-assert before and select-deassert after; and — since the
equations hold for every injected transport outcome — the deassert runs
even when the bus write fails, with the transport's status surfaced
unchanged to the caller. -/
theorem write_cmd_data_framing (w : World) (cmd : Nat) (data : List Nat) :
    (ssd1309_write_cmd w cmd).2.trace = w.trace ++
      [.setLine .select .low, .setLine .mode .low,
       .write [cmd], .setLine .select .high] ∧
    (ssd1309_write_cmd w cmd).1 = w.bus.headD .HAL_OK ∧
    (ssd1309_write_data w data).2.trace = w.trace ++
      [.setLine .select .low, .setLine .mode .high,
       .write data, .setLine .select .high] ∧
    (ssd1309_write_data w data).1 = w.bus.headD .HAL_OK := by
  refine ⟨?_, rfl, ?_, rfl⟩ <;>
    simp [ssd1309_write_cmd, ssd1309_write_data, emit, busWrite]

/-- Claim C9: `clear` yields a buffer of exactly
`WIDTH*HEIGHT/8 = 1024` bytes all equal to zero, regardless of prior
content; it has no failure mode (its type returns a buffer, never an
error) and performs no bus activity. -/
theorem clear_all_zero (fb : List Nat) (w : World) :
    fb_clear fb = List.replicate 1024 0 ∧
    (fb_clear fb).length = SSD1309_WIDTH * SSD1309_HEIGHT / 8 ∧
    (∀ b ∈ fb_clear fb, b = 0) ∧
    (clear_dev w).trace = w.trace ∧
    (clear_dev w).bus = w.bus := by
  refine ⟨rfl, by simp [fb_clear, SSD1309_FB_SIZE], ?_, rfl, rfl⟩
  intro b hb
  exact List.eq_of_mem_replicate hb

/-- Claim C10: `ssd1309_reset` (declared `void` in the header, embedded
as `World → World` with no status component) reports no failure on any
invocation: it consumes no transport outcome, performs no bus write,
never puts the session into the `Faulted` error state, and leaves the
framebuffer untouched — unlike the bus-writing operations, whose
embeddings all return a `HAL_StatusTypeDef`. -/
theorem reset_void_no_failure (w : World) :
    (ssd1309_reset w).dev.state = .Resetting ∧
    (ssd1309_reset w).dev.state ≠ .Faulted ∧
    (ssd1309_reset w).bus = w.bus ∧
    countWrites (ssd1309_reset w).trace = countWrites w.trace ∧
    (ssd1309_reset w).dev.framebuffer = w.dev.framebuffer ∧
    (ssd1309_reset w).trace = w.trace ++ resetTrace := by
  refine ⟨rfl, by simp [ssd1309_reset, setState], rfl, ?_, rfl, rfl⟩
  rw [show (ssd1309_reset w).trace = w.trace ++ resetTrace from rfl,
      countWrites_append]
  rfl

/-- Claim C5: for every coordinate outside `[0,128) × [0,64)`,
`set_pixel` fails with `OutOfBounds` and the session world — its
framebuffer included — is exactly what it was before: no wrapping, no
clamping, no mutation. -/
theorem set_pixel_out_of_bounds (w : World) (x y : Int) (lit : Bool)
    (h : x < 0 ∨ 128 ≤ x ∨ y < 0 ∨ 64 ≤ y) :
    set_pixel_dev w x y lit = (.error .OutOfBounds, w) := by
  have hc : ¬(0 ≤ x ∧ x < 128 ∧ 0 ≤ y ∧ y < 64) := by omega
  simp [set_pixel_dev, set_pixel, hc]

/-- Witness for C5 at the concrete out-of-range input `x = -1`. -/
theorem set_pixel_out_of_bounds_witness :
    ((-1 : Int) < 0 ∨ (128 : Int) ≤ -1 ∨ (0 : Int) < 0 ∨ (64 : Int) ≤ 0) ∧
    set_pixel_dev wEmpty (-1) 0 true = (.error .OutOfBounds, wEmpty) :=
  ⟨by decide, set_pixel_out_of_bounds wEmpty (-1) 0 true (by decide)⟩

/-- Claim C4: for every `x ∈ [0,128)`, `y ∈ [0,64)` and flag, the pixel
operation succeeds and touches exactly the bit at byte index
`(y/8)*WIDTH + x`, bit position `y mod 8`: reading that bit back yields
the flag, repeating the identical call returns the identical buffer
(idempotence), every other byte is unchanged, and every other bit of
the target byte is unchanged. -/
theorem set_pixel_inbounds_exact (fb : List Nat) (x y : Int) (lit : Bool)
    (hlen : fb.length = SSD1309_FB_SIZE)
    (hx0 : 0 ≤ x) (hx : x < 128) (hy0 : 0 ≤ y) (hy : y < 64) :
    ∃ fb',
      set_pixel fb x y lit = .ok fb' ∧
      get_pixel fb' x y = .ok lit ∧
      set_pixel fb' x y lit = .ok fb' ∧
      fb'.length = fb.length ∧
      (∀ j, j ≠ (y.toNat / 8) * SSD1309_WIDTH + x.toNat →
        fb'.getD j 0 = fb.getD j 0) ∧
      (∀ k, k < 8 → k ≠ y.toNat % 8 →
        Nat.testBit (fb'.getD ((y.toNat / 8) * SSD1309_WIDTH + x.toNat) 0) k =
        Nat.testBit (fb.getD ((y.toNat / 8) * SSD1309_WIDTH + x.toNat) 0) k) := by
  have hc : 0 ≤ x ∧ x < 128 ∧ 0 ≤ y ∧ y < 64 := ⟨hx0, hx, hy0, hy⟩
  simp only [SSD1309_WIDTH]
  have hbit : y.toNat % 8 < 8 := Nat.mod_lt _ (by omega)
  have hidx : (y.toNat / 8) * 128 + x.toNat < fb.length := by
    rw [hlen]
    have h1024 : SSD1309_FB_SIZE = 1024 := rfl
    omega
  set v := setBitByte (fb.getD ((y.toNat / 8) * 128 + x.toNat) 0)
    (y.toNat % 8) lit with hv
  set fb2 := fb.set ((y.toNat / 8) * 128 + x.toNat) v with hfb2
  have hset : set_pixel fb x y lit = .ok fb2 := by
    simp only [set_pixel, SSD1309_WIDTH, if_pos hc]
  have hgetD : fb2.getD ((y.toNat / 8) * 128 + x.toNat) 0 = v := by
    rw [hfb2]
    simp [List.getD_eq_getElem?_getD, List.getElem?_set_self hidx]
  refine ⟨fb2, hset, ?_, ?_, ?_, ?_, ?_⟩
  · simp only [get_pixel, SSD1309_WIDTH, if_pos hc, hgetD, hv,
      testBit_setBitByte_self _ _ _ hbit]
  · have hstep : set_pixel fb2 x y lit =
        .ok (fb2.set ((y.toNat / 8) * 128 + x.toNat)
          (setBitByte (fb2.getD ((y.toNat / 8) * 128 + x.toNat) 0)
            (y.toNat % 8) lit)) := by
      simp only [set_pixel, SSD1309_WIDTH, if_pos hc]
    rw [hstep, hgetD, hv, setBitByte_idem, hfb2, List.set_set]
  · rw [hfb2, List.length_set]
  · intro j hj
    rw [hfb2]
    simp [List.getD_eq_getElem?_getD, List.getElem?_set_ne (Ne.symm hj)]
  · intro k hk hkne
    rw [hgetD, hv, testBit_setBitByte_other _ _ _ _ hk hkne]

/-- Witness for C4 at the concrete in-range input `(x, y) = (5, 11)` on
an all-zero 1024-byte buffer. -/
theorem set_pixel_inbounds_exact_witness :
    (List.replicate 1024 0 : List Nat).length = SSD1309_FB_SIZE ∧
    ((0 : Int) ≤ 5 ∧ (5 : Int) < 128 ∧ (0 : Int) ≤ 11 ∧ (11 : Int) < 64) ∧
    (∃ fb',
      set_pixel (List.replicate 1024 0) 5 11 true = .ok fb' ∧
      get_pixel fb' 5 11 = .ok true ∧
      set_pixel fb' 5 11 true = .ok fb' ∧
      fb'.length = (List.replicate 1024 0 : List Nat).length ∧
      (∀ j, j ≠ ((11 : Int).toNat / 8) * SSD1309_WIDTH + (5 : Int).toNat →
        fb'.getD j 0 = (List.replicate 1024 0 : List Nat).getD j 0) ∧
      (∀ k, k < 8 → k ≠ (11 : Int).toNat % 8 →
        Nat.testBit (fb'.getD (((11 : Int).toNat / 8) * SSD1309_WIDTH +
          (5 : Int).toNat) 0) k =
        Nat.testBit ((List.replicate 1024 0 : List Nat).getD
          (((11 : Int).toNat / 8) * SSD1309_WIDTH + (5 : Int).toNat) 0) k)) :=
  ⟨by rw [List.length_replicate]; rfl,
   ⟨by decide, by decide, by decide, by decide⟩,
   set_pixel_inbounds_exact (List.replicate 1024 0) 5 11 true
     (by rw [List.length_replicate]; rfl) (by decide) (by decide) (by decide)
     (by decide)⟩

theorem setState_fb (w : World) (s : SessionState) :
    (setState w s).dev.framebuffer = w.dev.framebuffer := rfl

theorem writeCmds_fb (cs : List Nat) (w : World) :
    (writeCmds cs w).2.dev.framebuffer = w.dev.framebuffer := by
  rw [writeCmds_dev]

theorem update_fb (w : World) :
    (ssd1309_update w).2.dev.framebuffer = w.dev.framebuffer := by
  simp only [ssd1309_update]
  split
  · split
    · split <;> simp [setState, write_data_dev, writeCmds_dev]
    · simp [setState, writeCmds_dev]
  · rfl

theorem init_fb (w : World) :
    (ssd1309_init w).2.dev.framebuffer = w.dev.framebuffer := by
  simp only [ssd1309_init]
  split <;> simp [setState, writeCmds_dev, ssd1309_reset]

/-- Claim C8: `SSD1309_FB_SIZE` is exactly `WIDTH*HEIGHT/8 = 1024`
bytes; byte index `(y/8)*WIDTH + x` of the page-addressed layout sits
at column `i mod WIDTH = x` and page `i div WIDTH = y/8` inside the
buffer; and every driver operation preserves the buffer-length
invariant (the buffer is never resized, and the bus-facing operations
never touch its contents at all). -/
theorem framebuffer_invariant :
    (SSD1309_FB_SIZE = 1024 ∧
     SSD1309_FB_SIZE = SSD1309_WIDTH * SSD1309_HEIGHT / 8) ∧
    (∀ x y : Nat, x < SSD1309_WIDTH → y < SSD1309_HEIGHT →
      ((y / 8) * SSD1309_WIDTH + x) % SSD1309_WIDTH = x ∧
      ((y / 8) * SSD1309_WIDTH + x) / SSD1309_WIDTH = y / 8 ∧
      (y / 8) * SSD1309_WIDTH + x < SSD1309_FB_SIZE) ∧
    (∀ w : World, w.dev.framebuffer.length = SSD1309_FB_SIZE →
      (∀ x y lit,
        (set_pixel_dev w x y lit).2.dev.framebuffer.length = SSD1309_FB_SIZE) ∧
      (clear_dev w).dev.framebuffer.length = SSD1309_FB_SIZE ∧
      (ssd1309_update w).2.dev.framebuffer = w.dev.framebuffer ∧
      (ssd1309_init w).2.dev.framebuffer = w.dev.framebuffer ∧
      (ssd1309_reset w).dev.framebuffer = w.dev.framebuffer) := by
  refine ⟨⟨rfl, rfl⟩, ?_, ?_⟩
  · intro x y hx hy
    simp only [SSD1309_WIDTH, SSD1309_HEIGHT, SSD1309_FB_SIZE] at *
    omega
  · intro w hlen
    refine ⟨?_, ?_, update_fb w, init_fb w, rfl⟩
    · intro x y lit
      by_cases hc : 0 ≤ x ∧ x < 128 ∧ 0 ≤ y ∧ y < 64
      · simp [set_pixel_dev, set_pixel, hc, hlen]
      · simp [set_pixel_dev, set_pixel, hc, hlen]
    · simp [clear_dev, fb_clear, SSD1309_FB_SIZE]

/-- Witness for C8's quantified parts at the in-range coordinate
`(x, y) = (3, 20)` and a fresh 1024-byte session. -/
theorem framebuffer_invariant_witness :
    ((3 : Nat) < SSD1309_WIDTH ∧ (20 : Nat) < SSD1309_HEIGHT ∧
      ((20 / 8) * SSD1309_WIDTH + 3) % SSD1309_WIDTH = 3) ∧
    (initialWorld.dev.framebuffer.length = SSD1309_FB_SIZE ∧
      (clear_dev initialWorld).dev.framebuffer.length = SSD1309_FB_SIZE) :=
  ⟨⟨by decide, by decide,
      (framebuffer_invariant.2.1 3 20 (by decide) (by decide)).1⟩,
   ⟨List.length_replicate SSD1309_FB_SIZE 0,
    (framebuffer_invariant.2.2 initialWorld
      (List.length_replicate SSD1309_FB_SIZE 0)).2.1⟩⟩

/-- Claim C2: every successful run of `ssd1309_init` first emits the
hardware reset pulse (reset deassert, hold, assert for the minimum
pulse width, release, then the post-reset settle delay — all of
`resetTrace` precedes any bus write) and then exactly the fixed
documented command sequence, each byte framed as a command transaction
(select assert, mode LOW, write, select deassert); afterwards the
session is `Ready` and the framebuffer is untouched. -/
theorem init_success_trace (w : World)
    (h : (ssd1309_init w).1 = .HAL_OK) :
    (ssd1309_init w).2.trace
      = w.trace ++ resetTrace ++ (initCommands.map cmdTxTrace).flatten ∧
    (ssd1309_init w).2.dev.state = .Ready ∧
    (ssd1309_init w).2.dev.framebuffer = w.dev.framebuffer := by
  simp only [ssd1309_init] at h ⊢
  by_cases hok : (writeCmds initCommands
      (setState (ssd1309_reset w) .Configuring)).1 = .HAL_OK
  · rw [if_pos hok]
    refine ⟨?_, rfl, ?_⟩
    · show (writeCmds initCommands
        (setState (ssd1309_reset w) .Configuring)).2.trace = _
      rw [writeCmds_ok_trace _ _ hok]
      rfl
    · show (writeCmds initCommands
        (setState (ssd1309_reset w) .Configuring)).2.dev.framebuffer = _
      rw [writeCmds_fb]
      rfl
  · rw [if_neg hok] at h
    exact absurd h hok

/-- Witness for C2: a fresh session over a clean transport initializes
successfully, ends `Ready`, and its whole trace is the reset pulse
followed by the fixed command sequence. -/
theorem init_success_trace_witness :
    (ssd1309_init wEmpty).1 = .HAL_OK ∧
    (ssd1309_init wEmpty).2.trace
      = wEmpty.trace ++ resetTrace ++ (initCommands.map cmdTxTrace).flatten ∧
    (ssd1309_init wEmpty).2.dev.state = .Ready :=
  ⟨by decide, (init_success_trace wEmpty (by decide)).1,
   (init_success_trace wEmpty (by decide)).2.1⟩

/-- Claim C3: a successful `ssd1309_update` first issues the
set-addressing-window commands for the full screen and then a single
data transaction whose payload — and therefore the concatenation of all
data-mode payloads of the emitted segment — equals exactly the 1024
framebuffer bytes in order, with no addressing command re-issued after
the data transfer begins. -/
theorem update_success_payload (w : World)
    (hlen : w.dev.framebuffer.length = SSD1309_FB_SIZE)
    (h : (ssd1309_update w).1 = .HAL_OK) :
    (ssd1309_update w).2.trace
      = w.trace ++ (windowCommands.map cmdTxTrace).flatten
          ++ dataTxTrace w.dev.framebuffer ∧
    (∀ m, dataBytes m ((windowCommands.map cmdTxTrace).flatten
          ++ dataTxTrace w.dev.framebuffer) = w.dev.framebuffer) ∧
    w.dev.framebuffer.length = 1024 := by
  have hready : w.dev.state = .Ready := by
    by_contra hn
    simp only [ssd1309_update, if_neg hn] at h
    exact HAL_StatusTypeDef.noConfusion h
  simp only [ssd1309_update, if_pos hready] at h ⊢
  by_cases h1 : (writeCmds windowCommands w).1 = .HAL_OK
  · rw [if_pos h1] at h ⊢
    by_cases h2 : (ssd1309_write_data (writeCmds windowCommands w).2
        w.dev.framebuffer).1 = .HAL_OK
    · rw [if_pos h2]
      refine ⟨?_, ?_, ?_⟩
      · rw [write_data_trace, writeCmds_ok_trace _ _ h1]
      · intro m
        simp [windowCommands, cmdTxTrace, dataTxTrace, dataBytes]
      · rw [hlen]; rfl
    · rw [if_neg h2] at h
      exact absurd h h2
  · rw [if_neg h1] at h
    exact absurd h h1

/-- Witness for C3: a `Ready` session with a 1024-byte buffer of 7s
updates successfully and the data-mode payload of the emitted segment
is exactly that buffer. -/
theorem update_success_payload_witness :
    wReady.dev.framebuffer.length = SSD1309_FB_SIZE ∧
    (ssd1309_update wReady).1 = .HAL_OK ∧
    dataBytes .low ((windowCommands.map cmdTxTrace).flatten
        ++ dataTxTrace wReady.dev.framebuffer) = wReady.dev.framebuffer :=
  ⟨List.length_replicate SSD1309_FB_SIZE 7, by decide,
   (update_success_payload wReady (List.length_replicate SSD1309_FB_SIZE 7)
      (by decide)).2.1 .low⟩

/-- Claim C6: `ssd1309_update` invoked in any state other than `Ready`
(`Uninitialized`, `Faulted`, …) fails with the
`NotInitialized`-equivalent `HAL_ERROR` and returns the world exactly
as it was — zero bus transactions issued; and the non-init operations
that are legal before `Ready` (`reset`, `clear`, `set_pixel`) never add
a bus transaction, so no transaction occurs on a session before its
initialization completes successfully. -/
theorem update_not_ready_no_transactions (w : World) :
    (w.dev.state ≠ .Ready → ssd1309_update w = (.HAL_ERROR, w)) ∧
    countWrites (clear_dev w).trace = countWrites w.trace ∧
    (∀ x y lit, countWrites (set_pixel_dev w x y lit).2.trace
      = countWrites w.trace) ∧
    countWrites (ssd1309_reset w).trace = countWrites w.trace := by
  refine ⟨?_, rfl, ?_, ?_⟩
  · intro hn
    simp only [ssd1309_update, if_neg hn]
  · intro x y lit
    simp only [set_pixel_dev]
    split <;> rfl
  · rw [show (ssd1309_reset w).trace = w.trace ++ resetTrace from rfl,
        countWrites_append]
    rfl

/-- Witness for C6: an `Uninitialized` session (with a failure-primed
transport, which must never even be consulted) rejects `update`
untouched. -/
theorem update_not_ready_no_transactions_witness :
    wFail.dev.state ≠ .Ready ∧
    ssd1309_update wFail = (.HAL_ERROR, wFail) :=
  ⟨by decide, (update_not_ready_no_transactions wFail).1 (by decide)⟩

theorem writeCmds_countWrites (cs : List Nat) (w : World) :
    countWrites (writeCmds cs w).2.trace
      ≤ countWrites w.trace + cs.length := by
  induction cs generalizing w with
  | nil => simp [writeCmds]
  | cons c cs ih =>
    have hone : countWrites (ssd1309_write_cmd w c).2.trace
        = countWrites w.trace + 1 := by
      rw [write_cmd_trace, countWrites_append]
      rfl
    simp only [writeCmds, List.length_cons]
    split
    · exact le_trans (ih _) (by omega)
    · rw [hone]
      omega

/-- Claim C7: any bus-write failure during `ssd1309_init` (or during a
`Ready`-state `ssd1309_update`) transitions the session to `Faulted`;
a non-`HAL_OK` result of `init` is always one of the transport's own
outcomes, surfaced synchronously to the caller; `init` ignores the
incoming state entirely, so the only recovery from `Faulted` is a full
fresh re-run of `init`; and `init` never retries internally — it issues
at most one bus write per command of the fixed sequence. -/
theorem bus_failure_faults_no_retry (w : World) :
    ((ssd1309_init w).1 ≠ .HAL_OK →
      (ssd1309_init w).2.dev.state = .Faulted) ∧
    ((ssd1309_init w).1 ≠ .HAL_OK → (ssd1309_init w).1 ∈ w.bus) ∧
    (w.dev.state = .Ready → (ssd1309_update w).1 ≠ .HAL_OK →
      (ssd1309_update w).2.dev.state = .Faulted) ∧
    (∀ s, ssd1309_init (setState w s) = ssd1309_init w) ∧
    countWrites (ssd1309_init w).2.trace
      ≤ countWrites w.trace + initCommands.length := by
  refine ⟨?_, ?_, ?_, ?_, ?_⟩
  · intro hne
    simp only [ssd1309_init] at hne ⊢
    by_cases hok : (writeCmds initCommands
        (setState (ssd1309_reset w) .Configuring)).1 = .HAL_OK
    · rw [if_pos hok] at hne
      exact absurd rfl hne
    · rw [if_neg hok]
      rfl
  · intro hne
    simp only [ssd1309_init] at hne ⊢
    by_cases hok : (writeCmds initCommands
        (setState (ssd1309_reset w) .Configuring)).1 = .HAL_OK
    · rw [if_pos hok] at hne
      exact absurd rfl hne
    · rw [if_neg hok] at hne ⊢
      rcases writeCmds_status_from_bus initCommands
          (setState (ssd1309_reset w) .Configuring) with h | h
      · exact absurd h hok
      · exact h
  · intro hready hne
    simp only [ssd1309_update, if_pos hready] at hne ⊢
    by_cases h1 : (writeCmds windowCommands w).1 = .HAL_OK
    · rw [if_pos h1] at hne ⊢
      by_cases h2 : (ssd1309_write_data (writeCmds windowCommands w).2
          w.dev.framebuffer).1 = .HAL_OK
      · rw [if_pos h2] at hne
        exact absurd h2 hne
      · rw [if_neg h2]
        rfl
    · rw [if_neg h1]
      rfl
  · intro s
    rfl
  · have hh : countWrites (setState (ssd1309_reset w) .Configuring).trace
        + initCommands.length = countWrites w.trace + initCommands.length := by
      rw [show (setState (ssd1309_reset w) .Configuring).trace
          = w.trace ++ resetTrace from rfl, countWrites_append]
      rfl
    simp only [ssd1309_init]
    split
    · exact le_trans (writeCmds_countWrites initCommands _) (le_of_eq hh)
    · exact le_trans (writeCmds_countWrites initCommands _) (le_of_eq hh)

/-- Witness for C7: injecting a transport failure on the first bus
write makes `init` fail, and the session lands in `Faulted`. -/
theorem bus_failure_faults_no_retry_witness :
    (ssd1309_init wFail).1 ≠ .HAL_OK ∧
    (ssd1309_init wFail).2.dev.state = .Faulted :=
  ⟨by decide, (bus_failure_faults_no_retry wFail).1 (by decide)⟩

end SSD1309
